import Mathlib

/-!
Shallow embedding of `src/server.js`: an Express server that accepts a
multipart form submission with `photo` and `video` file collections,
uploads every file to Cloudinary (the Object Store) via `Promise.all`
fan-out, persists a Mongoose `Form` record (the Record Store), and
exposes `GET /forms` to list persisted records.

Modelling conventions:
- A file buffer is an opaque `String`; the Object Store client
  `uploadToCloudinary` is an environment function
  `store : String → String → Outcome` from (buffer, resource type) to
  either a secure URL or a failure message (the promise's rejection
  reason's `.message`).
- `Promise.all` over a list of already-determined upload outcomes is
  `promiseAll`.  Its resolved value is assembled by input index, so on
  success it is independent of completion order; its rejection reason is
  the reason of the first upload to fail in completion-time order, which
  we model with an explicit `order : List Nat` parameter listing the
  indices in completion order (meaningful when `order` is a permutation
  of the input indices).
- The Record Store's `save` is an environment function
  `saveFn : FormRecord → Except String Unit`; `Form.find()` for
  `GET /forms` is a parameter `Except String (List FormRecord)`.
- Side effects on the external services are made observable in an
  `Effects` trace: the Object Store calls actually dispatched, in
  dispatch order, and the records handed to `save`.
-/

namespace Server

/-- One in-memory uploaded file part (multer memory storage); `buffer`
stands for the binary blob. -/
structure UploadedFile where
  buffer : String
deriving DecidableEq, Repr

/-- Result of one `uploadToCloudinary` call: the resolved
`result.secure_url`, or the rejection reason. -/
inductive Outcome where
  | ok (secureUrl : String)
  | err (message : String)
deriving DecidableEq, Repr

/-- Whether an upload outcome is a success. -/
def Outcome.succeeded : Outcome → Bool
  | .ok _ => true
  | .err _ => false

/-- The URL carried by a successful outcome (dummy for failures). -/
def Outcome.urlOf : Outcome → String
  | .ok u => u
  | .err _ => ""

/-- The failure message at index `i` of the outcome list, if index `i`
exists and failed. -/
def errAt (results : List Outcome) (i : Nat) : Option String :=
  match results[i]? with
  | some (.err e) => some e
  | _ => none

/-- The failure message of the first upload, in completion order, that
failed. -/
def firstErrorIn (results : List Outcome) : List Nat → Option String
  | [] => none
  | i :: rest =>
    match errAt results i with
    | some e => some e
    | none => firstErrorIn results rest

/-- Whether every upload in the batch succeeded. -/
def allOk (results : List Outcome) : Bool := results.all Outcome.succeeded

/-- The URLs of a fully successful batch, in input-index order. -/
def urlsOf (results : List Outcome) : List String := results.map Outcome.urlOf

/-- Semantics of `await Promise.all(...)` over one batch of uploads:
resolves to the values in input-index order when every promise
resolves, otherwise rejects with the reason of the first promise (in
completion order) to reject. -/
def promiseAll (results : List Outcome) (order : List Nat) :
    Except String (List String) :=
  if allOk results then .ok (urlsOf results)
  else .error ((firstErrorIn results order).getD "")

/-- The `req.files` object built by `upload.fields(...)`: each key is
absent (`none`) or holds the list of parts for that field. -/
structure FilesField where
  photo : Option (List UploadedFile)
  video : Option (List UploadedFile)
deriving DecidableEq, Repr

/-- The `req.body` text fields used by the handler. -/
structure ReqBody where
  name : String
  address : String
deriving DecidableEq, Repr

/-- A Mongoose `Form` document as built by the handler (identity and
timestamps not modelled; the schema has exactly these four fields). -/
structure FormRecord where
  name : String
  address : String
  photoUrls : List String
  videoUrls : List String
deriving DecidableEq, Repr

/-- The JSON bodies the two routes can produce. -/
inductive RespBody where
  | message (m : String)
  | messageError (m e : String)
  | success (m : String) (form : FormRecord)
  | forms (records : List FormRecord)
deriving DecidableEq, Repr

/-- An HTTP response: status code and JSON body. -/
structure Response where
  status : Nat
  body : RespBody
deriving DecidableEq, Repr

/-- Observable calls made to the external services during one request:
Object Store calls (buffer, resource type) in dispatch order, and the
records passed to the Record Store's `save`. -/
structure Effects where
  storeCalls : List (String × String)
  saveCalls : List FormRecord
deriving DecidableEq, Repr

/-- One kind's upload step, mirroring
`req.files.photo ? await Promise.all(req.files.photo.map(file => uploadToCloudinary(file.buffer, 'image'))) : []`:
an absent key yields `[]` with no store call; a present list dispatches
one store call per file (the `.map` runs eagerly, so every call is
dispatched even if some fail) and awaits them via `promiseAll`. -/
def uploadKind (store : String → String → Outcome)
    (files : Option (List UploadedFile)) (resourceType : String)
    (order : List Nat) :
    Except String (List String) × List (String × String) :=
  match files with
  | none => (.ok [], [])
  | some fs =>
      (promiseAll (fs.map fun f => store f.buffer resourceType) order,
       fs.map fun f => (f.buffer, resourceType))

/-- The `POST /submit-form` handler (lines 68-102 of `server.js`):
validation, photo fan-out, video fan-out, save, and the catch-all
mapping every thrown error to a 500 response. -/
def submitForm (store : String → String → Outcome)
    (saveFn : FormRecord → Except String Unit)
    (files : Option FilesField) (body : ReqBody)
    (ordP ordV : List Nat) : Response × Effects :=
  match files with
  | none =>
      (⟨400, .message "At least one photo or video is required"⟩, ⟨[], []⟩)
  | some fs =>
    if fs.photo.isNone && fs.video.isNone then
      (⟨400, .message "At least one photo or video is required"⟩, ⟨[], []⟩)
    else
      match uploadKind store fs.photo "image" ordP with
      | (.error e, pCalls) =>
          (⟨500, .messageError "Something went wrong" e⟩, ⟨pCalls, []⟩)
      | (.ok photoUrls, pCalls) =>
        match uploadKind store fs.video "video" ordV with
        | (.error e, vCalls) =>
            (⟨500, .messageError "Something went wrong" e⟩,
             ⟨pCalls ++ vCalls, []⟩)
        | (.ok videoUrls, vCalls) =>
          let newForm : FormRecord :=
            ⟨body.name, body.address, photoUrls, videoUrls⟩
          match saveFn newForm with
          | .error e =>
              (⟨500, .messageError "Something went wrong" e⟩,
               ⟨pCalls ++ vCalls, [newForm]⟩)
          | .ok _ =>
              (⟨200, .success "Form submitted successfully!" newForm⟩,
               ⟨pCalls ++ vCalls, [newForm]⟩)

/-- The `GET /forms` handler (lines 105-113 of `server.js`):
`Form.find()` either yields the list of persisted records (HTTP 200
with the JSON array) or throws (HTTP 500 with an error message). -/
def getForms (findAll : Except String (List FormRecord)) : Response :=
  match findAll with
  | .ok records => ⟨200, .forms records⟩
  | .error _ => ⟨500, .message "Error fetching forms"⟩

/-- The files of one kind's key, reading an absent key as no files. -/
def kindFiles (o : Option (List UploadedFile)) : List UploadedFile := o.getD []

/-- The Object Store outcomes for a list of files of one kind. -/
def outcomesOf (store : String → String → Outcome)
    (fs : List UploadedFile) (rt : String) : List Outcome :=
  fs.map fun f => store f.buffer rt

/-- The Object Store calls dispatched for one kind's key. -/
def callsOf (o : Option (List UploadedFile)) (rt : String) :
    List (String × String) :=
  (kindFiles o).map fun f => (f.buffer, rt)

/-- Outcomes of a submission's photo batch. -/
def photoOutcomes (store : String → String → Outcome) (fs : FilesField) :
    List Outcome :=
  outcomesOf store (kindFiles fs.photo) "image"

/-- Outcomes of a submission's video batch. -/
def videoOutcomes (store : String → String → Outcome) (fs : FilesField) :
    List Outcome :=
  outcomesOf store (kindFiles fs.video) "video"

/-- Whether every upload of the submission, over both kinds, succeeds. -/
def allUploadsOk (store : String → String → Outcome) (fs : FilesField) : Bool :=
  allOk (photoOutcomes store fs) && allOk (videoOutcomes store fs)

/-- The Object Store calls of the photo batch. -/
def photoCallsOf (fs : FilesField) : List (String × String) :=
  callsOf fs.photo "image"

/-- The Object Store calls of the video batch. -/
def videoCallsOf (fs : FilesField) : List (String × String) :=
  callsOf fs.video "video"

/-- The record the handler builds when both batches succeed. -/
def expectedRecord (store : String → String → Outcome) (fs : FilesField)
    (body : ReqBody) : FormRecord :=
  ⟨body.name, body.address, urlsOf (photoOutcomes store fs),
   urlsOf (videoOutcomes store fs)⟩

/-- Whether a Record Store result is a success. -/
def exceptOk : Except String Unit → Bool
  | .ok _ => true
  | .error _ => false

/-- The records actually persisted in a run: those handed to `save`
for which `save` succeeded. -/
def persistedRecords (saveFn : FormRecord → Except String Unit)
    (eff : Effects) : List FormRecord :=
  eff.saveCalls.filter fun r => exceptOk (saveFn r)

/-- Demonstration Object Store that succeeds on every upload, returning
a URL derived from the buffer and resource type. -/
def demoStore (buffer rt : String) : Outcome := .ok (buffer ++ "/" ++ rt)

/-- Demonstration Object Store that fails exactly on the buffer "bad". -/
def demoStoreBad (buffer rt : String) : Outcome :=
  if buffer = "bad" then .err ("upload failed: " ++ buffer)
  else .ok (buffer ++ "/" ++ rt)

/-- Demonstration Object Store for the spec's concrete scenario A,
returning `U_<buffer>` for every upload. -/
def adaStore (buffer _rt : String) : Outcome := .ok ("U_" ++ buffer)

/-- Demonstration Record Store whose save always succeeds. -/
def demoSave (_r : FormRecord) : Except String Unit := .ok ()

/-- Request body of the spec's concrete scenario A. -/
def adaBody : ReqBody := ⟨"Ada", "1 Infinite Loop"⟩

/-! Helper lemmas shared by the claim theorems. -/

theorem promiseAll_ok_iff (results : List Outcome) (order : List Nat)
    (urls : List String) :
    promiseAll results order = .ok urls ↔
      allOk results = true ∧ urls = urlsOf results := by
  by_cases hc : allOk results = true
  · rw [promiseAll, if_pos hc]
    constructor
    · intro h
      exact ⟨hc, (Except.ok.inj h).symm⟩
    · intro h
      rw [h.2]
  · rw [promiseAll, if_neg hc]
    constructor
    · intro h
      exact Except.noConfusion h
    · intro h
      exact absurd h.1 hc

theorem uploadKind_eq_of_allOk (store : String → String → Outcome)
    (o : Option (List UploadedFile)) (rt : String) (order : List Nat)
    (h : allOk (outcomesOf store (kindFiles o) rt) = true) :
    uploadKind store o rt order =
      (.ok (urlsOf (outcomesOf store (kindFiles o) rt)), callsOf o rt) := by
  cases o with
  | none => simp [uploadKind, outcomesOf, kindFiles, callsOf, urlsOf]
  | some fs =>
      simp only [uploadKind, callsOf, kindFiles, Option.getD_some]
      rw [promiseAll]
      simp_all [outcomesOf, kindFiles]

theorem uploadKind_eq_of_err (store : String → String → Outcome)
    (o : Option (List UploadedFile)) (rt : String) (order : List Nat)
    (h : allOk (outcomesOf store (kindFiles o) rt) = false) :
    uploadKind store o rt order =
      (.error ((firstErrorIn (outcomesOf store (kindFiles o) rt) order).getD ""),
       callsOf o rt) := by
  cases o with
  | none => simp [outcomesOf, kindFiles, allOk] at h
  | some fs =>
      simp only [uploadKind, callsOf, kindFiles, Option.getD_some]
      rw [promiseAll]
      simp_all [outcomesOf, kindFiles]

theorem validation_passes (fs : FilesField)
    (hatt : fs.photo.isSome ∨ fs.video.isSome) :
    (fs.photo.isNone && fs.video.isNone) = false := by
  rcases hatt with h | h
  · have hn : fs.photo.isNone = false := by
      cases hp : fs.photo with
      | none => rw [hp] at h; simp at h
      | some l => rfl
    simp [hn]
  · have hn : fs.video.isNone = false := by
      cases hp : fs.video with
      | none => rw [hp] at h; simp at h
      | some l => rfl
    simp [hn]

theorem exists_err_of_not_allOk (results : List Outcome)
    (h : allOk results = false) :
    ∃ i, i < results.length ∧ errAt results i ≠ none := by
  unfold allOk at h
  rw [List.all_eq_false] at h
  obtain ⟨x, hmem, hx⟩ := h
  obtain ⟨i, hi, hget⟩ := List.mem_iff_getElem.mp hmem
  refine ⟨i, hi, ?_⟩
  cases x with
  | ok u => simp [Outcome.succeeded] at hx
  | err e =>
      unfold errAt
      rw [List.getElem?_eq_getElem hi, hget]
      simp

theorem firstErrorIn_mem (results : List Outcome) (order : List Nat)
    (h : ∃ j ∈ order, errAt results j ≠ none) :
    ∃ e, firstErrorIn results order = some e ∧ Outcome.err e ∈ results := by
  induction order with
  | nil => simp at h
  | cons i rest ih =>
      cases hcase : errAt results i with
      | some e =>
          refine ⟨e, by simp [firstErrorIn, hcase], ?_⟩
          unfold errAt at hcase
          cases hres : results[i]? with
          | none => rw [hres] at hcase; cases hcase
          | some o =>
              rw [hres] at hcase
              cases o with
              | ok u => simp at hcase
              | err e2 =>
                  simp at hcase
                  subst hcase
                  exact List.getElem?_mem hres
      | none =>
          obtain ⟨j, hj, hje⟩ := h
          have hji : j ≠ i := by
            intro hrfl
            exact hje (hrfl ▸ hcase)
          have hrest : j ∈ rest := by
            rcases List.mem_cons.mp hj with h1 | h1
            · exact absurd h1 hji
            · exact h1
          have harg : ∃ j ∈ rest, errAt results j ≠ none := ⟨j, hrest, hje⟩
          obtain ⟨e, he1, he2⟩ := ih harg
          exact ⟨e, by simp [firstErrorIn, hcase, he1], he2⟩

theorem submitForm_rejected (store : String → String → Outcome)
    (saveFn : FormRecord → Except String Unit) (body : ReqBody)
    (ordP ordV : List Nat) (files : Option FilesField)
    (h : files = none ∨ files = some ⟨none, none⟩) :
    submitForm store saveFn files body ordP ordV =
      (⟨400, .message "At least one photo or video is required"⟩, ⟨[], []⟩) := by
  rcases h with h | h
  · subst h; rfl
  · subst h; rfl

theorem submitForm_photo_fail (store : String → String → Outcome)
    (saveFn : FormRecord → Except String Unit) (fs : FilesField)
    (body : ReqBody) (ordP ordV : List Nat)
    (hatt : fs.photo.isSome ∨ fs.video.isSome)
    (hp : allOk (photoOutcomes store fs) = false) :
    submitForm store saveFn (some fs) body ordP ordV =
      (⟨500, .messageError "Something went wrong"
          ((firstErrorIn (photoOutcomes store fs) ordP).getD "")⟩,
       ⟨photoCallsOf fs, []⟩) := by
  have hval := validation_passes fs hatt
  rw [photoOutcomes] at hp
  have hup := uploadKind_eq_of_err store fs.photo "image" ordP hp
  simp [submitForm, hval, hup, photoOutcomes, photoCallsOf]

theorem submitForm_video_fail (store : String → String → Outcome)
    (saveFn : FormRecord → Except String Unit) (fs : FilesField)
    (body : ReqBody) (ordP ordV : List Nat)
    (hatt : fs.photo.isSome ∨ fs.video.isSome)
    (hp : allOk (photoOutcomes store fs) = true)
    (hv : allOk (videoOutcomes store fs) = false) :
    submitForm store saveFn (some fs) body ordP ordV =
      (⟨500, .messageError "Something went wrong"
          ((firstErrorIn (videoOutcomes store fs) ordV).getD "")⟩,
       ⟨photoCallsOf fs ++ videoCallsOf fs, []⟩) := by
  have hval := validation_passes fs hatt
  rw [photoOutcomes] at hp
  rw [videoOutcomes] at hv
  have hupP := uploadKind_eq_of_allOk store fs.photo "image" ordP hp
  have hupV := uploadKind_eq_of_err store fs.video "video" ordV hv
  simp [submitForm, hval, hupP, hupV, videoOutcomes, photoCallsOf, videoCallsOf]

theorem submitForm_uploads_ok (store : String → String → Outcome)
    (saveFn : FormRecord → Except String Unit) (fs : FilesField)
    (body : ReqBody) (ordP ordV : List Nat)
    (hatt : fs.photo.isSome ∨ fs.video.isSome)
    (hp : allOk (photoOutcomes store fs) = true)
    (hv : allOk (videoOutcomes store fs) = true) :
    submitForm store saveFn (some fs) body ordP ordV =
      ((match saveFn (expectedRecord store fs body) with
        | .error e => ⟨500, .messageError "Something went wrong" e⟩
        | .ok _ =>
            ⟨200, .success "Form submitted successfully!"
              (expectedRecord store fs body)⟩),
       ⟨photoCallsOf fs ++ videoCallsOf fs, [expectedRecord store fs body]⟩) := by
  have hval := validation_passes fs hatt
  rw [photoOutcomes] at hp
  rw [videoOutcomes] at hv
  have hupP := uploadKind_eq_of_allOk store fs.photo "image" ordP hp
  have hupV := uploadKind_eq_of_allOk store fs.video "video" ordV hv
  simp only [submitForm, hval, Bool.false_eq_true, if_false, hupP, hupV,
    expectedRecord, photoOutcomes, videoOutcomes, photoCallsOf, videoCallsOf]
  cases saveFn ⟨body.name, body.address,
      urlsOf (outcomesOf store (kindFiles fs.photo) "image"),
      urlsOf (outcomesOf store (kindFiles fs.video) "video")⟩ <;> rfl

theorem allOk_get (results : List Outcome) (h : allOk results = true)
    (i : Nat) (hi : i < results.length) :
    ∃ u, results.get ⟨i, hi⟩ = .ok u := by
  have hmem : results.get ⟨i, hi⟩ ∈ results := results.get_mem i hi
  have := List.all_eq_true.mp h _ hmem
  cases hget : results.get ⟨i, hi⟩ with
  | ok u => exact ⟨u, rfl⟩
  | err e => rw [hget] at this; simp [Outcome.succeeded] at this

/-! Claim theorems. -/

/-- Claim C1: for a non-empty batch of attachments of one kind, when the
upload fan-out succeeds the returned URL sequence has exactly the length
of the input, its element at position `i` is the URL the Object Store
returned for the attachment at input position `i`, and the same sequence
is returned for every completion order. -/
theorem upload_fanout_index_aligned (store : String → String → Outcome)
    (fs : List UploadedFile) (rt : String) (order order2 : List Nat)
    (urls : List String) (hne : fs ≠ [])
    (h : (uploadKind store (some fs) rt order).1 = .ok urls) :
    (uploadKind store (some fs) rt order2).1 = .ok urls ∧
    urls.length = fs.length ∧
    ∀ i (hi : i < fs.length),
      ∃ u, store (fs.get ⟨i, hi⟩).buffer rt = .ok u ∧ urls[i]? = some u := by
  have h1 : promiseAll (fs.map fun f => store f.buffer rt) order = .ok urls := h
  rw [promiseAll_ok_iff] at h1
  obtain ⟨hall, hurls⟩ := h1
  refine ⟨?_, ?_, ?_⟩
  · show promiseAll (fs.map fun f => store f.buffer rt) order2 = .ok urls
    rw [promiseAll_ok_iff]
    exact ⟨hall, hurls⟩
  · rw [hurls]
    simp [urlsOf]
  · intro i hi
    have hmap : (fs.map fun f => store f.buffer rt)[i]? =
        some (store (fs.get ⟨i, hi⟩).buffer rt) := by
      rw [List.getElem?_map, List.getElem?_eq_getElem hi]
      rfl
    have hi2 : i < (fs.map fun f => store f.buffer rt).length := by
      simpa using hi
    obtain ⟨u, hu⟩ := allOk_get _ hall i hi2
    have hu2 : (fs.map fun f => store f.buffer rt)[i]? = some (.ok u) := by
      rw [List.getElem?_eq_getElem hi2]
      exact congrArg some hu
    have hstore : store (fs.get ⟨i, hi⟩).buffer rt = .ok u :=
      Option.some.inj (hmap.symm.trans hu2)
    refine ⟨u, hstore, ?_⟩
    rw [hurls]
    show (urlsOf (fs.map fun f => store f.buffer rt))[i]? = some u
    rw [urlsOf, List.getElem?_map, hmap]
    rw [hstore]
    rfl

/-- Witness for C1: a two-photo batch against the always-succeeding
store, checked for two different completion orders. -/
theorem upload_fanout_index_aligned_witness :
    (uploadKind demoStore (some [⟨"p1"⟩, ⟨"p2"⟩]) "image" [1, 0]).1 =
      .ok ["p1/image", "p2/image"] ∧
    (["p1/image", "p2/image"] : List String).length =
      ([⟨"p1"⟩, ⟨"p2"⟩] : List UploadedFile).length ∧
    ∀ i (hi : i < ([⟨"p1"⟩, ⟨"p2"⟩] : List UploadedFile).length),
      ∃ u, demoStore (([⟨"p1"⟩, ⟨"p2"⟩] : List UploadedFile).get ⟨i, hi⟩).buffer
          "image" = .ok u ∧
        (["p1/image", "p2/image"] : List String)[i]? = some u :=
  upload_fanout_index_aligned demoStore [⟨"p1"⟩, ⟨"p2"⟩] "image" [0, 1] [1, 0]
    ["p1/image", "p2/image"] (List.cons_ne_nil _ _) rfl

/-- Claim C3: a batch of N > 0 attachments in which at least one upload
fails makes the whole fan-out fail, with the surfaced cause being the
failure message of one of the batch's own uploads, and the caller never
observes any list of successful URLs. -/
theorem upload_fanout_all_or_nothing (store : String → String → Outcome)
    (fs : List UploadedFile) (rt : String) (order : List Nat)
    (hne : fs ≠ [])
    (hfail : allOk (outcomesOf store fs rt) = false)
    (hperm : order.Perm (List.range fs.length)) :
    ∃ e, (uploadKind store (some fs) rt order).1 = .error e ∧
      Outcome.err e ∈ outcomesOf store fs rt ∧
      ∀ urls, (uploadKind store (some fs) rt order).1 ≠ .ok urls := by
  have hlen : (outcomesOf store fs rt).length = fs.length := by
    simp [outcomesOf]
  obtain ⟨i, hi, hie⟩ := exists_err_of_not_allOk _ hfail
  have hmem : i ∈ order := hperm.mem_iff.mpr (List.mem_range.mpr (hlen ▸ hi))
  obtain ⟨e, he1, he2⟩ := firstErrorIn_mem _ order ⟨i, hmem, hie⟩
  refine ⟨e, ?_, he2, ?_⟩
  · show promiseAll (outcomesOf store fs rt) order = .error e
    rw [promiseAll, if_neg (by simp [hfail]), he1]
    rfl
  · intro urls hcon
    have hcon2 : promiseAll (outcomesOf store fs rt) order = .ok urls := hcon
    rw [promiseAll_ok_iff] at hcon2
    exact Bool.noConfusion (hcon2.1.symm.trans hfail)

/-- Witness for C3: a two-attachment batch whose second upload fails. -/
theorem upload_fanout_all_or_nothing_witness :
    ∃ e, (uploadKind demoStoreBad (some [⟨"a"⟩, ⟨"bad"⟩]) "image" [0, 1]).1 =
        .error e ∧
      Outcome.err e ∈ outcomesOf demoStoreBad [⟨"a"⟩, ⟨"bad"⟩] "image" ∧
      ∀ urls, (uploadKind demoStoreBad (some [⟨"a"⟩, ⟨"bad"⟩]) "image" [0, 1]).1 ≠
        .ok urls :=
  upload_fanout_all_or_nothing demoStoreBad [⟨"a"⟩, ⟨"bad"⟩] "image" [0, 1]
    (List.cons_ne_nil _ _) rfl (by decide)

/-- Claim C4: a submission whose photo and video collections are both
empty (at the parsed-request level: `req.files` absent, or both keys
absent) is answered with HTTP 400 and the documented message, with no
Object Store call and no Record Store call made. -/
theorem no_attachment_rejected (store : String → String → Outcome)
    (saveFn : FormRecord → Except String Unit) (body : ReqBody)
    (ordP ordV : List Nat) (files : Option FilesField)
    (h : files = none ∨ files = some ⟨none, none⟩) :
    submitForm store saveFn files body ordP ordV =
      (⟨400, .message "At least one photo or video is required"⟩, ⟨[], []⟩) :=
  submitForm_rejected store saveFn body ordP ordV files h

/-- Witness for C4: a request with both file keys absent. -/
theorem no_attachment_rejected_witness :
    submitForm demoStore demoSave (some ⟨none, none⟩) adaBody [] [] =
      (⟨400, .message "At least one photo or video is required"⟩, ⟨[], []⟩) :=
  no_attachment_rejected demoStore demoSave adaBody [] [] (some ⟨none, none⟩)
    (Or.inr rfl)

/-- Claim C5: a kind whose attachment collection is absent, or present
but empty, yields the empty URL sequence and dispatches no Object Store
call. -/
theorem upload_empty_kind (store : String → String → Outcome) (rt : String)
    (order : List Nat) :
    uploadKind store none rt order = (.ok [], []) ∧
    uploadKind store (some []) rt order = (.ok [], []) := by
  constructor
  · rfl
  · rfl

/-- Claim C8: `GET /forms` answers HTTP 200 with the JSON array of all
records the Record Store lists, and HTTP 500 with the documented message
when the listing fails. -/
theorem forms_endpoint (records : List FormRecord) (e : String) :
    getForms (.ok records) = ⟨200, .forms records⟩ ∧
    getForms (.error e) = ⟨500, .message "Error fetching forms"⟩ := by
  constructor
  · rfl
  · rfl

/-- Claim C2: for a submission that passes validation, against a Record
Store whose save succeeds, a record is persisted exactly when every
upload of the submission succeeded; and whenever some upload fails,
`save` is never invoked at all. -/
theorem record_persisted_iff_all_uploads_ok (store : String → String → Outcome)
    (saveFn : FormRecord → Except String Unit) (fs : FilesField)
    (body : ReqBody) (ordP ordV : List Nat)
    (hatt : fs.photo.isSome ∨ fs.video.isSome)
    (hsave : ∀ r, saveFn r = .ok ()) :
    (persistedRecords saveFn
        (submitForm store saveFn (some fs) body ordP ordV).2 ≠ [] ↔
      allUploadsOk store fs = true) ∧
    (allUploadsOk store fs = false →
      (submitForm store saveFn (some fs) body ordP ordV).2.saveCalls = []) := by
  by_cases hp : allOk (photoOutcomes store fs) = true
  · by_cases hv : allOk (videoOutcomes store fs) = true
    · rw [submitForm_uploads_ok store saveFn fs body ordP ordV hatt hp hv]
      simp [allUploadsOk, hp, hv, persistedRecords, exceptOk, hsave]
    · have hv2 : allOk (videoOutcomes store fs) = false := by simpa using hv
      rw [submitForm_video_fail store saveFn fs body ordP ordV hatt hp hv2]
      simp [allUploadsOk, hp, hv2, persistedRecords]
  · have hp2 : allOk (photoOutcomes store fs) = false := by simpa using hp
    rw [submitForm_photo_fail store saveFn fs body ordP ordV hatt hp2]
    simp [allUploadsOk, hp2, persistedRecords]

/-- Witness for C2: a one-photo submission against the always-succeeding
stores. -/
theorem record_persisted_iff_all_uploads_ok_witness :
    (persistedRecords demoSave
        (submitForm demoStore demoSave (some ⟨some [⟨"p1"⟩], none⟩) adaBody
          [0] []).2 ≠ [] ↔
      allUploadsOk demoStore ⟨some [⟨"p1"⟩], none⟩ = true) ∧
    (allUploadsOk demoStore ⟨some [⟨"p1"⟩], none⟩ = false →
      (submitForm demoStore demoSave (some ⟨some [⟨"p1"⟩], none⟩) adaBody
        [0] []).2.saveCalls = []) :=
  record_persisted_iff_all_uploads_ok demoStore demoSave ⟨some [⟨"p1"⟩], none⟩
    adaBody [0] [] (Or.inl rfl) (fun _ => rfl)

/-- Claim C6: when validation passes, every upload succeeds and the save
succeeds, the handler answers HTTP 200 with the documented message and
the record, and the record carries the request's name and address
verbatim together with the order-preserved photo and video URL lists,
and exactly that record is handed to the Record Store. -/
theorem submit_success_response (store : String → String → Outcome)
    (saveFn : FormRecord → Except String Unit) (fs : FilesField)
    (body : ReqBody) (ordP ordV : List Nat)
    (hatt : fs.photo.isSome ∨ fs.video.isSome)
    (hp : allOk (photoOutcomes store fs) = true)
    (hv : allOk (videoOutcomes store fs) = true)
    (hsave : saveFn (expectedRecord store fs body) = .ok ()) :
    submitForm store saveFn (some fs) body ordP ordV =
      (⟨200, .success "Form submitted successfully!" (expectedRecord store fs body)⟩,
       ⟨photoCallsOf fs ++ videoCallsOf fs, [expectedRecord store fs body]⟩) ∧
    (expectedRecord store fs body).name = body.name ∧
    (expectedRecord store fs body).address = body.address ∧
    (expectedRecord store fs body).photoUrls = urlsOf (photoOutcomes store fs) ∧
    (expectedRecord store fs body).videoUrls = urlsOf (videoOutcomes store fs) := by
  refine ⟨?_, rfl, rfl, rfl, rfl⟩
  rw [submitForm_uploads_ok store saveFn fs body ordP ordV hatt hp hv, hsave]

/-- Witness for C6: the spec's concrete scenario A, with photos p1, p2
and video v1 all succeeding with URLs U_p1, U_p2, U_v1. -/
theorem submit_success_response_witness :
    submitForm adaStore demoSave
        (some ⟨some [⟨"p1"⟩, ⟨"p2"⟩], some [⟨"v1"⟩]⟩) adaBody [0, 1] [0] =
      (⟨200, .success "Form submitted successfully!"
          ⟨"Ada", "1 Infinite Loop", ["U_p1", "U_p2"], ["U_v1"]⟩⟩,
       ⟨[("p1", "image"), ("p2", "image"), ("v1", "video")],
        [⟨"Ada", "1 Infinite Loop", ["U_p1", "U_p2"], ["U_v1"]⟩]⟩) := by
  have h := submit_success_response adaStore demoSave
    ⟨some [⟨"p1"⟩, ⟨"p2"⟩], some [⟨"v1"⟩]⟩ adaBody [0, 1] [0]
    (Or.inl rfl) rfl rfl rfl
  exact h.1

/-- Claim C7: the handler is total over its failure modes: every
response is 200, 400, or 500, and whenever validation passed but some
upload failed or the save failed, the response is HTTP 500 with the
documented body carrying the cause. -/
theorem failures_mapped_to_500 (store : String → String → Outcome)
    (saveFn : FormRecord → Except String Unit) (files : Option FilesField)
    (body : ReqBody) (ordP ordV : List Nat) :
    ((submitForm store saveFn files body ordP ordV).1.status = 200 ∨
     (submitForm store saveFn files body ordP ordV).1.status = 400 ∨
     ((submitForm store saveFn files body ordP ordV).1.status = 500 ∧
      ∃ e, (submitForm store saveFn files body ordP ordV).1.body =
        .messageError "Something went wrong" e)) ∧
    (∀ fs, files = some fs → (fs.photo.isSome ∨ fs.video.isSome) →
      ¬(allUploadsOk store fs = true ∧
        exceptOk (saveFn (expectedRecord store fs body)) = true) →
      (submitForm store saveFn files body ordP ordV).1.status = 500 ∧
      ∃ e, (submitForm store saveFn files body ordP ordV).1.body =
        .messageError "Something went wrong" e) := by
  constructor
  · rcases files with _ | fs
    · rw [submitForm_rejected store saveFn body ordP ordV none (Or.inl rfl)]
      right; left; rfl
    · by_cases hatt : fs.photo.isSome ∨ fs.video.isSome
      · by_cases hp : allOk (photoOutcomes store fs) = true
        · by_cases hv : allOk (videoOutcomes store fs) = true
          · rw [submitForm_uploads_ok store saveFn fs body ordP ordV hatt hp hv]
            cases hs : saveFn (expectedRecord store fs body) with
            | ok u => left; rfl
            | error e => right; right; exact ⟨rfl, e, rfl⟩
          · have hv2 : allOk (videoOutcomes store fs) = false := by simpa using hv
            rw [submitForm_video_fail store saveFn fs body ordP ordV hatt hp hv2]
            right; right; exact ⟨rfl, _, rfl⟩
        · have hp2 : allOk (photoOutcomes store fs) = false := by simpa using hp
          rw [submitForm_photo_fail store saveFn fs body ordP ordV hatt hp2]
          right; right; exact ⟨rfl, _, rfl⟩
      · obtain ⟨p, v⟩ := fs
        push_neg at hatt
        obtain ⟨h1, h2⟩ := hatt
        have hpn : p = none := by
          cases p with
          | none => rfl
          | some l => simp at h1
        have hvn : v = none := by
          cases v with
          | none => rfl
          | some l => simp at h2
        subst hpn; subst hvn
        rw [submitForm_rejected store saveFn body ordP ordV
          (some ⟨none, none⟩) (Or.inr rfl)]
        right; left; rfl
  · intro fs hfs hatt hfail
    subst hfs
    by_cases hp : allOk (photoOutcomes store fs) = true
    · by_cases hv : allOk (videoOutcomes store fs) = true
      · rw [submitForm_uploads_ok store saveFn fs body ordP ordV hatt hp hv]
        cases hs : saveFn (expectedRecord store fs body) with
        | ok u =>
            exact absurd ⟨by simp [allUploadsOk, hp, hv], by simp [hs, exceptOk]⟩
              hfail
        | error e => exact ⟨rfl, e, rfl⟩
      · have hv2 : allOk (videoOutcomes store fs) = false := by simpa using hv
        rw [submitForm_video_fail store saveFn fs body ordP ordV hatt hp hv2]
        exact ⟨rfl, _, rfl⟩
    · have hp2 : allOk (photoOutcomes store fs) = false := by simpa using hp
      rw [submitForm_photo_fail store saveFn fs body ordP ordV hatt hp2]
      exact ⟨rfl, _, rfl⟩

/-- Witness for C7: a submission whose only upload fails is answered
with the documented 500 body. -/
theorem failures_mapped_to_500_witness :
    (submitForm demoStoreBad demoSave (some ⟨some [⟨"bad"⟩], none⟩) adaBody
      [0] []).1.status = 500 ∧
    ∃ e, (submitForm demoStoreBad demoSave (some ⟨some [⟨"bad"⟩], none⟩) adaBody
      [0] []).1.body = .messageError "Something went wrong" e :=
  (failures_mapped_to_500 demoStoreBad demoSave (some ⟨some [⟨"bad"⟩], none⟩)
      adaBody [0] []).2
    ⟨some [⟨"bad"⟩], none⟩ rfl (Or.inl rfl) (by decide)

/-- Claim C9: the Object Store call trace of every validated submission
is the full photo batch followed by video calls, and when some photo
upload fails the trace consists of the photo batch only — every call in
it is an image call, so zero video uploads are dispatched. -/
theorem photos_dispatched_before_videos (store : String → String → Outcome)
    (saveFn : FormRecord → Except String Unit) (fs : FilesField)
    (body : ReqBody) (ordP ordV : List Nat)
    (hatt : fs.photo.isSome ∨ fs.video.isSome) :
    (∃ vcalls,
      (submitForm store saveFn (some fs) body ordP ordV).2.storeCalls =
        photoCallsOf fs ++ vcalls ∧
      (vcalls = [] ∨ vcalls = videoCallsOf fs)) ∧
    (allOk (photoOutcomes store fs) = false →
      (submitForm store saveFn (some fs) body ordP ordV).2.storeCalls =
        photoCallsOf fs ∧
      ∀ c ∈ (submitForm store saveFn (some fs) body ordP ordV).2.storeCalls,
        c.2 = "image") := by
  by_cases hp : allOk (photoOutcomes store fs) = true
  · constructor
    · by_cases hv : allOk (videoOutcomes store fs) = true
      · rw [submitForm_uploads_ok store saveFn fs body ordP ordV hatt hp hv]
        exact ⟨videoCallsOf fs, rfl, Or.inr rfl⟩
      · have hv2 : allOk (videoOutcomes store fs) = false := by simpa using hv
        rw [submitForm_video_fail store saveFn fs body ordP ordV hatt hp hv2]
        exact ⟨videoCallsOf fs, rfl, Or.inr rfl⟩
    · intro hcon
      exact absurd hp (by simp [hcon])
  · have hp2 : allOk (photoOutcomes store fs) = false := by simpa using hp
    rw [submitForm_photo_fail store saveFn fs body ordP ordV hatt hp2]
    refine ⟨⟨[], by simp, Or.inl rfl⟩, fun _ => ⟨rfl, ?_⟩⟩
    intro c hc
    simp only [photoCallsOf, callsOf] at hc
    obtain ⟨f, hf, hfc⟩ := List.mem_map.mp hc
    rw [← hfc]

/-- Witness for C9: a submission whose photo upload fails and which also
carries a video attachment; the trace holds the photo call only. -/
theorem photos_dispatched_before_videos_witness :
    (∃ vcalls,
      (submitForm demoStoreBad demoSave
          (some ⟨some [⟨"bad"⟩], some [⟨"v1"⟩]⟩) adaBody [0] [0]).2.storeCalls =
        photoCallsOf ⟨some [⟨"bad"⟩], some [⟨"v1"⟩]⟩ ++ vcalls ∧
      (vcalls = [] ∨ vcalls = videoCallsOf ⟨some [⟨"bad"⟩], some [⟨"v1"⟩]⟩)) ∧
    (allOk (photoOutcomes demoStoreBad ⟨some [⟨"bad"⟩], some [⟨"v1"⟩]⟩) = false →
      (submitForm demoStoreBad demoSave
          (some ⟨some [⟨"bad"⟩], some [⟨"v1"⟩]⟩) adaBody [0] [0]).2.storeCalls =
        photoCallsOf ⟨some [⟨"bad"⟩], some [⟨"v1"⟩]⟩ ∧
      ∀ c ∈ (submitForm demoStoreBad demoSave
          (some ⟨some [⟨"bad"⟩], some [⟨"v1"⟩]⟩) adaBody [0] [0]).2.storeCalls,
        c.2 = "image") :=
  photos_dispatched_before_videos demoStoreBad demoSave
    ⟨some [⟨"bad"⟩], some [⟨"v1"⟩]⟩ adaBody [0] [0] (Or.inl rfl)

/-- Claim C10: a request whose photo and video keys are both present but
map to empty lists is not rejected with 400: processing continues with
zero Object Store calls, the handler answers 200, and a record with
empty photoUrls and empty videoUrls is handed to the Record Store and
persisted. -/
theorem empty_lists_not_rejected (store : String → String → Outcome)
    (saveFn : FormRecord → Except String Unit) (body : ReqBody)
    (ordP ordV : List Nat)
    (hsave : saveFn ⟨body.name, body.address, [], []⟩ = .ok ()) :
    (submitForm store saveFn (some ⟨some [], some []⟩) body ordP ordV).1.status ≠
      400 ∧
    submitForm store saveFn (some ⟨some [], some []⟩) body ordP ordV =
      (⟨200, .success "Form submitted successfully!"
          ⟨body.name, body.address, [], []⟩⟩,
       ⟨[], [⟨body.name, body.address, [], []⟩]⟩) ∧
    persistedRecords saveFn
        (submitForm store saveFn (some ⟨some [], some []⟩) body ordP ordV).2 =
      [⟨body.name, body.address, [], []⟩] := by
  have heq : submitForm store saveFn (some ⟨some [], some []⟩) body ordP ordV =
      (⟨200, .success "Form submitted successfully!"
          ⟨body.name, body.address, [], []⟩⟩,
       ⟨[], [⟨body.name, body.address, [], []⟩]⟩) := by
    rw [submitForm_uploads_ok store saveFn ⟨some [], some []⟩ body ordP ordV
      (Or.inl rfl) rfl rfl]
    rw [show expectedRecord store ⟨some [], some []⟩ body =
      (⟨body.name, body.address, [], []⟩ : FormRecord) from rfl]
    rw [hsave]
    rfl
  refine ⟨?_, heq, ?_⟩
  · rw [heq]
    simp
  · rw [heq]
    simp [persistedRecords, hsave, exceptOk]

/-- Witness for C10: both keys present with empty lists, against the
always-succeeding stores. -/
theorem empty_lists_not_rejected_witness :
    (submitForm demoStore demoSave (some ⟨some [], some []⟩) adaBody
      [] []).1.status ≠ 400 ∧
    submitForm demoStore demoSave (some ⟨some [], some []⟩) adaBody [] [] =
      (⟨200, .success "Form submitted successfully!"
          ⟨"Ada", "1 Infinite Loop", [], []⟩⟩,
       ⟨[], [⟨"Ada", "1 Infinite Loop", [], []⟩]⟩) ∧
    persistedRecords demoSave
        (submitForm demoStore demoSave (some ⟨some [], some []⟩) adaBody
          [] []).2 =
      [⟨"Ada", "1 Infinite Loop", [], []⟩] :=
  empty_lists_not_rejected demoStore demoSave adaBody [] [] rfl

end Server
